import Mathlib

/-!
Shallow embedding of the feedr-fast-api social core: follow graph, likes,
notifications, feed visibility and unified feed merge.  Each definition is
translated from the corresponding Python function; user, post and repost ids
are modelled as Nat, timestamps as Int, visibility as the literal strings used
by the source ("public", "private", "followers_only").  SQL selects over
tables become list scans, SQLAlchemy ORM row mutation becomes record update,
HTTPException becomes an Except error, and the commit/rollback discipline of
get_db (session.py) is modelled by returning the unchanged database when an
endpoint errors.
-/

deriving instance DecidableEq for Except

namespace Feedr

/-- Row of the users table (fields relevant to the social core):
id, is_private, followers_count, following_count. -/
structure UserRec where
  id : Nat
  isPrivate : Bool
  followersCount : Int
  followingCount : Int
  deriving DecidableEq

/-- Row of the posts table: id, user_id (author), content, visibility,
likes_count, created_at. -/
structure PostRec where
  id : Nat
  userId : Nat
  content : String
  visibility : String
  likesCount : Int
  createdAt : Int
  deriving DecidableEq

/-- Row of the reposts table: id, user_id (reposter), post_id,
created_at (the repost's own creation time, the feed-ordering key). -/
structure RepostRec where
  id : Nat
  userId : Nat
  postId : Nat
  createdAt : Int
  deriving DecidableEq

/-- Row of the notifications table: user_id is the recipient. -/
structure NotifRec where
  userId : Nat
  actorId : Nat
  ntype : String
  text : String
  deriving DecidableEq

/-- The transactional store: users, posts, reposts, follow edges
(follower_id, following_id), pending follow requests
(requester_id, target_id), likes (user_id, post_id), notification rows, and
the queue of dispatched push jobs (recipient, body). -/
structure DB where
  users : List UserRec
  posts : List PostRec
  reposts : List RepostRec
  follows : List (Nat × Nat)
  followRequests : List (Nat × Nat)
  likes : List (Nat × Nat)
  notifications : List NotifRec
  pushQueue : List (Nat × String)
  deriving DecidableEq

/-- select(User).where(User.id == uid) with scalar_one_or_none. -/
def findUserIn : List UserRec → Nat → Option UserRec
  | [], _ => none
  | u :: rest, uid => if u.id == uid then some u else findUserIn rest uid

/-- Look a user up by primary key. -/
def findUser (db : DB) (uid : Nat) : Option UserRec :=
  findUserIn db.users uid

/-- select(Post).where(Post.id == pid) with scalar_one_or_none. -/
def findPostIn : List PostRec → Nat → Option PostRec
  | [], _ => none
  | p :: rest, pid => if p.id == pid then some p else findPostIn rest pid

/-- Look a post up by primary key. -/
def findPost (db : DB) (pid : Nat) : Option PostRec :=
  findPostIn db.posts pid

/-- ORM mutation of the user row with primary key uid. -/
def updateUser (db : DB) (uid : Nat) (f : UserRec → UserRec) : DB :=
  { db with users := db.users.map (fun u => if u.id == uid then f u else u) }

/-- ORM mutation of the post row with primary key pid. -/
def updatePost (db : DB) (pid : Nat) (f : PostRec → PostRec) : DB :=
  { db with posts := db.posts.map (fun p => if p.id == pid then f p else p) }

/-- _is_following (users.py): a Follow row with
follower_id == a and following_id == b exists. -/
def isFollowing (db : DB) (a b : Nat) : Bool :=
  db.follows.any (fun e => e.1 == a && e.2 == b)

/-- _has_pending_request (users.py): a FollowRequest row with
requester_id == a and target_id == b exists. -/
def hasPendingRequest (db : DB) (a b : Nat) : Bool :=
  db.followRequests.any (fun e => e.1 == a && e.2 == b)

/-- select(Like).where(Like.post_id == p, Like.user_id == u) is non-empty. -/
def likeExists (db : DB) (u p : Nat) : Bool :=
  db.likes.any (fun e => e.1 == u && e.2 == p)

/-- Number of Like rows for the pair (u, p). -/
def likeRowCount (db : DB) (u p : Nat) : Nat :=
  (db.likes.filter (fun e => e.1 == u && e.2 == p)).length

/-- Errors surfaced by the endpoints: HTTPException 404 / 400 / 403, and an
unhandled exception escaping the handler (which makes get_db roll back). -/
inductive ApiErr where
  | notFound
  | badRequest
  | forbidden
  | internalError
  deriving DecidableEq

/-- The dict {"follows": ..., "requested": ...} returned by the follow
endpoints. -/
structure FollowResult where
  follows : Bool
  requested : Bool
  deriving DecidableEq

/-- create_notification (notification_service.py).  Skips when actor equals
recipient (no row, no dispatch).  Otherwise adds the Notification row and then
calls send_push_notification.delay; the source does NOT guard that call with
try/except, so a broker failure (enqueueOk = false) propagates as an
exception out of the service.  enqueueOk models whether the Celery enqueue
succeeds. -/
def create_notification (enqueueOk : Bool) (db : DB) (user_id actor_id : Nat)
    (notification_type text : String) : Except ApiErr DB :=
  if user_id == actor_id then
    Except.ok db
  else
    let db1 := { db with
      notifications := db.notifications ++
        [NotifRec.mk user_id actor_id notification_type text] }
    if enqueueOk then
      Except.ok { db1 with pushQueue := db1.pushQueue ++ [(user_id, text)] }
    else
      Except.error ApiErr.internalError

/-- follow_user (users.py).  400 on self-follow; 404 when the target does not
exist; no-op returning the current state when already following; on a private
target creates a FollowRequest (if none pending) and notifies; on a public
target inserts the Follow edge, increments both counters and notifies. -/
def follow_user (enqueueOk : Bool) (db : DB) (currentUser userId : Nat) :
    Except ApiErr (DB × FollowResult) :=
  if userId == currentUser then
    Except.error ApiErr.badRequest
  else
    match findUser db userId with
    | none => Except.error ApiErr.notFound
    | some target =>
      if isFollowing db currentUser userId then
        Except.ok (db, { follows := true, requested := false })
      else if target.isPrivate then
        if hasPendingRequest db currentUser userId then
          Except.ok (db, { follows := false, requested := true })
        else
          let db1 := { db with followRequests := db.followRequests ++ [(currentUser, userId)] }
          match create_notification enqueueOk db1 userId currentUser
              "follow_request" "requested to follow you" with
          | Except.error e => Except.error e
          | Except.ok db2 => Except.ok (db2, { follows := false, requested := true })
      else
        let db1 := { db with follows := db.follows ++ [(currentUser, userId)] }
        let db2 := updateUser db1 userId
          (fun u => { u with followersCount := u.followersCount + 1 })
        let db3 := updateUser db2 currentUser
          (fun u => { u with followingCount := u.followingCount + 1 })
        match create_notification enqueueOk db3 userId currentUser
            "follow" "started following you" with
        | Except.error e => Except.error e
        | Except.ok db4 => Except.ok (db4, { follows := true, requested := false })

/-- unfollow_user (users.py).  Deletes the Follow edge if present and then
decrements each counter only when it is strictly positive (the source guards
with "> 0"); when no edge matched, nothing is touched and the same no-op
result is returned. -/
def unfollow_user (db : DB) (currentUser userId : Nat) : DB × FollowResult :=
  let removed := db.follows.filter (fun e => e.1 == currentUser && e.2 == userId)
  if removed.length > 0 then
    let db1 := { db with
      follows := db.follows.filter (fun e => !(e.1 == currentUser && e.2 == userId)) }
    let db2 := updateUser db1 userId
      (fun u => if u.followersCount > 0 then { u with followersCount := u.followersCount - 1 } else u)
    let db3 := updateUser db2 currentUser
      (fun u => if u.followingCount > 0 then { u with followingCount := u.followingCount - 1 } else u)
    (db3, { follows := false, requested := false })
  else
    (db, { follows := false, requested := false })

/-- remove_follower (users.py): delete the Follow edge (userId, currentUser)
and, when one was removed, decrement the remover's followers_count and the
removed user's following_count, each guarded by "> 0". -/
def remove_follower (db : DB) (currentUser userId : Nat) : DB :=
  let removed := db.follows.filter (fun e => e.1 == userId && e.2 == currentUser)
  if removed.length > 0 then
    let db1 := { db with
      follows := db.follows.filter (fun e => !(e.1 == userId && e.2 == currentUser)) }
    let db2 := updateUser db1 userId
      (fun u => if u.followingCount > 0 then { u with followingCount := u.followingCount - 1 } else u)
    let db3 := updateUser db2 currentUser
      (fun u => if u.followersCount > 0 then { u with followersCount := u.followersCount - 1 } else u)
    db3
  else
    db

/-- accept_follow_request (users.py).  400 on self-accept, 404 when no
matching FollowRequest (or the requester row is gone); otherwise deletes the
request, inserts the Follow edge, increments both counters and notifies the
requester. -/
def accept_follow_request (enqueueOk : Bool) (db : DB) (currentUser requesterId : Nat) :
    Except ApiErr (DB × Bool) :=
  if requesterId == currentUser then
    Except.error ApiErr.badRequest
  else if !(hasPendingRequest db requesterId currentUser) then
    Except.error ApiErr.notFound
  else
    match findUser db requesterId with
    | none => Except.error ApiErr.notFound
    | some _ =>
      let db1 := { db with
        followRequests := db.followRequests.filter
          (fun e => !(e.1 == requesterId && e.2 == currentUser)) }
      let db2 := { db1 with follows := db1.follows ++ [(requesterId, currentUser)] }
      let db3 := updateUser db2 currentUser
        (fun u => { u with followersCount := u.followersCount + 1 })
      let db4 := updateUser db3 requesterId
        (fun u => { u with followingCount := u.followingCount + 1 })
      match create_notification enqueueOk db4 requesterId currentUser
          "follow_request_accepted" "accepted your follow request" with
      | Except.error e => Except.error e
      | Except.ok db5 => Except.ok (db5, true)

/-- like_post (posts.py).  404 when the post is absent; returns the current
state when a Like row already exists; otherwise inserts the Like row,
increments likes_count and notifies the post author. -/
def like_post (enqueueOk : Bool) (db : DB) (currentUser postId : Nat) :
    Except ApiErr (DB × Bool) :=
  match findPost db postId with
  | none => Except.error ApiErr.notFound
  | some post =>
    if likeExists db currentUser postId then
      Except.ok (db, true)
    else
      let db1 := { db with likes := db.likes ++ [(currentUser, postId)] }
      let db2 := updatePost db1 postId
        (fun p => { p with likesCount := p.likesCount + 1 })
      match create_notification enqueueOk db2 post.userId currentUser
          "like" "liked your post" with
      | Except.error e => Except.error e
      | Except.ok db3 => Except.ok (db3, true)

/-- unlike_post (posts.py).  404 when the post is absent; when a Like row
exists, deletes it and sets likes_count to max(0, count - 1); otherwise a
no-op. -/
def unlike_post (db : DB) (currentUser postId : Nat) : Except ApiErr (DB × Bool) :=
  match findPost db postId with
  | none => Except.error ApiErr.notFound
  | some _ =>
    if likeExists db currentUser postId then
      let db1 := { db with
        likes := db.likes.filter (fun e => !(e.1 == currentUser && e.2 == postId)) }
      let db2 := updatePost db1 postId
        (fun p => { p with likesCount := max 0 (p.likesCount - 1) })
      Except.ok (db2, false)
    else
      Except.ok (db, false)

/-- The slice of PostResponse built by post_to_response that the claims
mention. -/
structure PostResponseM where
  id : Nat
  userId : Nat
  content : String
  visibility : String
  likesCount : Int
  isLiked : Bool
  deriving DecidableEq

/-- post_to_response (feed_service.py), restricted to the modelled fields. -/
def post_to_response (post : PostRec) (isLiked : Bool) : PostResponseM :=
  { id := post.id, userId := post.userId, content := post.content,
    visibility := post.visibility, likesCount := post.likesCount, isLiked := isLiked }

/-- get_post (posts.py): fetch by id with no visibility check; 404 only when
the row is absent; is_liked computed for a logged-in viewer. -/
def get_post (db : DB) (currentUser : Option Nat) (postId : Nat) :
    Except ApiErr PostResponseM :=
  match findPost db postId with
  | none => Except.error ApiErr.notFound
  | some post =>
    let isLiked := match currentUser with
      | some v => likeExists db v postId
      | none => false
    Except.ok (post_to_response post isLiked)

/-- The WHERE clause of get_feed_posts (feed_service.py): guests see only
public posts; a logged-in viewer sees public posts, their own private posts,
and followers_only posts whose author they are or follow. -/
def feedVisible (db : DB) (currentUserId : Option Nat) (p : PostRec) : Bool :=
  match currentUserId with
  | none => p.visibility == "public"
  | some v =>
    p.visibility == "public"
      || (p.visibility == "private" && p.userId == v)
      || (p.visibility == "followers_only" && (p.userId == v || isFollowing db v p.userId))

/-- ORDER BY created_at DESC on posts. -/
def postDesc (a b : PostRec) : Prop := b.createdAt ≤ a.createdAt

instance instDecPostDesc : DecidableRel postDesc :=
  fun a b => inferInstanceAs (Decidable (b.createdAt ≤ a.createdAt))

instance instTotalPostDesc : IsTotal PostRec postDesc :=
  ⟨fun a b => le_total b.createdAt a.createdAt⟩

instance instTransPostDesc : IsTrans PostRec postDesc :=
  ⟨fun _ _ _ h1 h2 => le_trans h2 h1⟩

/-- get_feed_posts (feed_service.py): filter by the visibility clause, order
by created_at descending, then OFFSET skip LIMIT limit. -/
def get_feed_posts (db : DB) (currentUserId : Option Nat) (skip limit : Nat) :
    List PostRec :=
  (((db.posts.filter (feedVisible db currentUserId)).insertionSort postDesc).drop skip).take limit

/-- An entry of the unified feed built by _build_unified_feed (feed.py). -/
inductive FeedItem where
  | post (p : PostRec)
  | repost (r : RepostRec)
  deriving DecidableEq

/-- The ordering timestamp a feed item is sorted by: a post's own created_at,
a repost's own created_at (not the underlying post's). -/
def feedItemTs : FeedItem → Int
  | FeedItem.post p => p.createdAt
  | FeedItem.repost r => r.createdAt

/-- items.sort(key, reverse=True): descending by the ordering timestamp. -/
def itemDesc (a b : FeedItem) : Prop := feedItemTs b ≤ feedItemTs a

instance instDecItemDesc : DecidableRel itemDesc :=
  fun a b => inferInstanceAs (Decidable (feedItemTs b ≤ feedItemTs a))

instance instTotalItemDesc : IsTotal FeedItem itemDesc :=
  ⟨fun a b => le_total (feedItemTs b) (feedItemTs a)⟩

instance instTransItemDesc : IsTrans FeedItem itemDesc :=
  ⟨fun _ _ _ h1 h2 => le_trans h2 h1⟩

/-- _build_unified_feed (feed.py): tag posts and reposts with their ordering
timestamps, sort the combined list by timestamp descending (Python's stable
sort with reverse=True, modelled by the stable insertionSort), then take
items[skip : skip + limit]. -/
def build_unified_feed (posts : List PostRec) (reposts : List RepostRec)
    (skip limit : Nat) : List FeedItem :=
  let items := posts.map FeedItem.post ++ reposts.map FeedItem.repost
  let sorted := items.insertionSort itemDesc
  (sorted.drop skip).take limit

/-- One like/unlike call on a fixed (user, post) pair. -/
inductive LikeOp where
  | like
  | unlike
  deriving DecidableEq

/-- Run one like/unlike request; an error response rolls the transaction
back, leaving the store unchanged (get_db in session.py). -/
def applyLikeOp (db : DB) (u p : Nat) : LikeOp → DB
  | LikeOp.like =>
    match like_post true db u p with
    | Except.ok (db1, _) => db1
    | Except.error _ => db
  | LikeOp.unlike =>
    match unlike_post db u p with
    | Except.ok (db1, _) => db1
    | Except.error _ => db

/-- Run a sequence of like/unlike calls for the pair (u, p). -/
def runLikeOps (db : DB) (u p : Nat) : List LikeOp → DB
  | [] => db
  | op :: rest => runLikeOps (applyLikeOp db u p op) u p rest

/-- Whether the pair ends up liked after a call sequence, given the starting
liked-state: each like sets it, each unlike clears it. -/
def netLiked : Bool → List LikeOp → Bool
  | b, [] => b
  | _, LikeOp.like :: rest => netLiked true rest
  | _, LikeOp.unlike :: rest => netLiked false rest

/-- The state of a (user, post) pair that has only ever been touched by that
user's like/unlike calls: the Like-row existence flag, the number of Like
rows, and the post's likes_count all agree. -/
def likeCleanState (db : DB) (u p : Nat) (flag : Bool) : Prop :=
  likeExists db u p = flag ∧
  likeRowCount db u p = (if flag then 1 else 0) ∧
  (findPost db p).map (fun post => post.likesCount) = some (if flag then (1 : Int) else 0)

/-- A social action, as dispatched to the endpoints. -/
inductive SocialOp where
  | follow (a b : Nat)
  | unfollow (a b : Nat)
  | removeFollower (a b : Nat)
  | accept (t r : Nat)
  | like (u p : Nat)
  | unlike (u p : Nat)
  deriving DecidableEq

/-- Run one social action; an error response rolls the transaction back. -/
def applySocialOp (db : DB) : SocialOp → DB
  | SocialOp.follow a b =>
    match follow_user true db a b with
    | Except.ok (db1, _) => db1
    | Except.error _ => db
  | SocialOp.unfollow a b => (unfollow_user db a b).1
  | SocialOp.removeFollower a b => remove_follower db a b
  | SocialOp.accept t r =>
    match accept_follow_request true db t r with
    | Except.ok (db1, _) => db1
    | Except.error _ => db
  | SocialOp.like u p =>
    match like_post true db u p with
    | Except.ok (db1, _) => db1
    | Except.error _ => db
  | SocialOp.unlike u p =>
    match unlike_post db u p with
    | Except.ok (db1, _) => db1
    | Except.error _ => db

/-- Run a sequence of social actions. -/
def runSocialOps (db : DB) : List SocialOp → DB
  | [] => db
  | op :: rest => runSocialOps (applySocialOp db op) rest

/-- Every user row has non-negative follower and following counters. -/
def usersNonneg (l : List UserRec) : Prop :=
  ∀ u ∈ l, 0 ≤ u.followersCount ∧ 0 ≤ u.followingCount

/-- Every post row has a non-negative likes counter. -/
def postsNonneg (l : List PostRec) : Prop :=
  ∀ p ∈ l, 0 ≤ p.likesCount

/-- All denormalized counters in the store are non-negative. -/
def countersNonneg (db : DB) : Prop :=
  usersNonneg db.users ∧ postsNonneg db.posts

/-- No notification row has its recipient equal to its actor. -/
def notifWellFormed (db : DB) : Prop :=
  ∀ n ∈ db.notifications, n.userId ≠ n.actorId

instance instDecLikeClean (db : DB) (u p : Nat) (flag : Bool) :
    Decidable (likeCleanState db u p flag) := by
  unfold likeCleanState
  infer_instance

instance instDecUsersNonneg (l : List UserRec) : Decidable (usersNonneg l) := by
  unfold usersNonneg
  infer_instance

instance instDecPostsNonneg (l : List PostRec) : Decidable (postsNonneg l) := by
  unfold postsNonneg
  infer_instance

instance instDecCountersNonneg (db : DB) : Decidable (countersNonneg db) := by
  unfold countersNonneg
  infer_instance

instance instDecNotifWellFormed (db : DB) : Decidable (notifWellFormed db) := by
  unfold notifWellFormed
  infer_instance

/-- A small concrete store: users 1 and 2 are public, user 3 is private, and
user 2 owns the private post 10.  Used by the witness theorems. -/
def dbMain : DB :=
  { users := [⟨1, false, 0, 0⟩, ⟨2, false, 0, 0⟩, ⟨3, true, 0, 0⟩],
    posts := [⟨10, 2, "hello", "private", 0, 100⟩],
    reposts := [],
    follows := [],
    followRequests := [],
    likes := [],
    notifications := [],
    pushQueue := [] }

/-- A concrete store in which user 1 already follows user 2 and already likes
post 10, for exercising the duplicate-action paths. -/
def dbDup : DB :=
  { users := [⟨1, false, 0, 1⟩, ⟨2, false, 1, 0⟩],
    posts := [⟨10, 2, "hi", "public", 1, 100⟩],
    reposts := [],
    follows := [(1, 2)],
    followRequests := [],
    likes := [(1, 10)],
    notifications := [],
    pushQueue := [] }

/-! ## Basic lemmas about the store primitives -/

theorem findUserIn_some_id {l : List UserRec} {uid : Nat} {u : UserRec}
    (h : findUserIn l uid = some u) : u.id = uid := by
  induction l with
  | nil => simp [findUserIn] at h
  | cons a l ih =>
    rw [findUserIn] at h
    by_cases hc : a.id = uid
    · simp only [hc, beq_self_eq_true, if_true, Option.some.injEq] at h
      rw [← h, hc]
    · simp only [beq_iff_eq, hc, if_false] at h
      exact ih h

theorem findUserIn_map_update (l : List UserRec) (uid uid' : Nat) (f : UserRec → UserRec)
    (hf : ∀ x, (f x).id = x.id) :
    findUserIn (l.map (fun u => if u.id == uid then f u else u)) uid' =
      (findUserIn l uid').map (fun u => if u.id == uid then f u else u) := by
  induction l with
  | nil => rfl
  | cons a l ih =>
    have hid : (if a.id == uid then f a else a).id = a.id := by
      by_cases hc : a.id = uid <;> simp [hc, hf]
    rw [List.map_cons, findUserIn, findUserIn, hid]
    by_cases hc : a.id = uid'
    · have ht : (a.id == uid') = true := by simp [hc]
      rw [if_pos ht, if_pos ht]
      rfl
    · have ht : ¬((a.id == uid') = true) := by simp [hc]
      rw [if_neg ht, if_neg ht]
      exact ih

theorem findUser_updateUser_self (db : DB) (uid : Nat) (f : UserRec → UserRec)
    (hf : ∀ x, (f x).id = x.id) :
    findUser (updateUser db uid f) uid = (findUser db uid).map f := by
  show findUserIn (db.users.map (fun u => if u.id == uid then f u else u)) uid =
    Option.map f (findUserIn db.users uid)
  rw [findUserIn_map_update _ _ _ _ hf]
  cases h : findUserIn db.users uid with
  | none => rfl
  | some u =>
    have hu := findUserIn_some_id h
    simp [Option.map, hu]

theorem findUser_updateUser_other (db : DB) (uid uid' : Nat) (f : UserRec → UserRec)
    (hf : ∀ x, (f x).id = x.id) (hne : uid' ≠ uid) :
    findUser (updateUser db uid f) uid' = findUser db uid' := by
  show findUserIn (db.users.map (fun u => if u.id == uid then f u else u)) uid' =
    findUserIn db.users uid'
  rw [findUserIn_map_update _ _ _ _ hf]
  cases h : findUserIn db.users uid' with
  | none => rfl
  | some u =>
    have hu := findUserIn_some_id h
    simp [Option.map, hu, hne]

theorem findPostIn_some_id {l : List PostRec} {pid : Nat} {p : PostRec}
    (h : findPostIn l pid = some p) : p.id = pid := by
  induction l with
  | nil => simp [findPostIn] at h
  | cons a l ih =>
    rw [findPostIn] at h
    by_cases hc : a.id = pid
    · simp only [hc, beq_self_eq_true, if_true, Option.some.injEq] at h
      rw [← h, hc]
    · simp only [beq_iff_eq, hc, if_false] at h
      exact ih h

theorem findPostIn_map_update (l : List PostRec) (pid pid' : Nat) (f : PostRec → PostRec)
    (hf : ∀ x, (f x).id = x.id) :
    findPostIn (l.map (fun p => if p.id == pid then f p else p)) pid' =
      (findPostIn l pid').map (fun p => if p.id == pid then f p else p) := by
  induction l with
  | nil => rfl
  | cons a l ih =>
    have hid : (if a.id == pid then f a else a).id = a.id := by
      by_cases hc : a.id = pid <;> simp [hc, hf]
    rw [List.map_cons, findPostIn, findPostIn, hid]
    by_cases hc : a.id = pid'
    · have ht : (a.id == pid') = true := by simp [hc]
      rw [if_pos ht, if_pos ht]
      rfl
    · have ht : ¬((a.id == pid') = true) := by simp [hc]
      rw [if_neg ht, if_neg ht]
      exact ih

theorem findPost_updatePost_self (db : DB) (pid : Nat) (f : PostRec → PostRec)
    (hf : ∀ x, (f x).id = x.id) :
    findPost (updatePost db pid f) pid = (findPost db pid).map f := by
  show findPostIn (db.posts.map (fun p => if p.id == pid then f p else p)) pid =
    Option.map f (findPostIn db.posts pid)
  rw [findPostIn_map_update _ _ _ _ hf]
  cases h : findPostIn db.posts pid with
  | none => rfl
  | some p =>
    have hp := findPostIn_some_id h
    simp [Option.map, hp]

theorem any_filter_neg {α : Type} (l : List α) (q : α → Bool) :
    (l.filter (fun e => !(q e))).any q = false := by
  rw [List.any_eq_false]
  intro x hx
  have hq := (List.mem_filter.mp hx).2
  simp only [Bool.not_eq_eq_eq_not, Bool.not_true] at hq
  simp [hq]

theorem filter_of_any_false {α : Type} {l : List α} {q : α → Bool}
    (h : l.any q = false) : l.filter q = [] := by
  rw [List.filter_eq_nil_iff]
  exact List.any_eq_false.mp h

/-! ## Lemmas about create_notification -/

theorem create_notification_true_eq (db : DB) (u a : Nat) (ty tx : String) :
    create_notification true db u a ty tx =
      Except.ok (if u == a then db else
        { db with
          notifications := db.notifications ++ [NotifRec.mk u a ty tx],
          pushQueue := db.pushQueue ++ [(u, tx)] }) := by
  unfold create_notification
  by_cases hc : u = a <;> simp [hc]

theorem create_notification_ok_fields {ok : Bool} {db db' : DB} {u a : Nat} {ty tx : String}
    (h : create_notification ok db u a ty tx = Except.ok db') :
    db'.users = db.users ∧ db'.posts = db.posts ∧ db'.follows = db.follows ∧
      db'.followRequests = db.followRequests ∧ db'.likes = db.likes := by
  unfold create_notification at h
  by_cases hc : u = a
  · simp only [hc, beq_self_eq_true, if_true, Except.ok.injEq] at h
    rw [← h]
    exact ⟨rfl, rfl, rfl, rfl, rfl⟩
  · simp only [beq_iff_eq, hc, if_false] at h
    cases ok with
    | false => simp at h
    | true =>
      simp only [if_true, Except.ok.injEq] at h
      rw [← h]
      exact ⟨rfl, rfl, rfl, rfl, rfl⟩

theorem create_notification_wf {ok : Bool} {db db' : DB} {u a : Nat} {ty tx : String}
    (h : create_notification ok db u a ty tx = Except.ok db')
    (hdb : notifWellFormed db) : notifWellFormed db' := by
  unfold create_notification at h
  by_cases hc : u = a
  · simp only [hc, beq_self_eq_true, if_true, Except.ok.injEq] at h
    rw [← h]
    exact hdb
  · simp only [beq_iff_eq, hc, if_false] at h
    cases ok with
    | false => simp at h
    | true =>
      simp only [if_true, Except.ok.injEq] at h
      rw [← h]
      intro n hn
      rcases List.mem_append.mp hn with hn | hn
      · exact hdb n hn
      · simp only [List.mem_singleton] at hn
        rw [hn]
        exact hc

/-! ## Counter non-negativity is preserved by every endpoint -/

theorem usersNonneg_map_update {l : List UserRec} (uid : Nat) (f : UserRec → UserRec)
    (hf : ∀ u, 0 ≤ u.followersCount ∧ 0 ≤ u.followingCount →
      0 ≤ (f u).followersCount ∧ 0 ≤ (f u).followingCount)
    (h : usersNonneg l) :
    usersNonneg (l.map (fun u => if u.id == uid then f u else u)) := by
  intro u hu
  rcases List.mem_map.mp hu with ⟨v, hv, rfl⟩
  by_cases hc : (v.id == uid) = true
  · rw [if_pos hc]
    exact hf v (h v hv)
  · rw [if_neg hc]
    exact h v hv

theorem postsNonneg_map_update {l : List PostRec} (pid : Nat) (f : PostRec → PostRec)
    (hf : ∀ p, 0 ≤ p.likesCount → 0 ≤ (f p).likesCount)
    (h : postsNonneg l) :
    postsNonneg (l.map (fun p => if p.id == pid then f p else p)) := by
  intro p hp
  rcases List.mem_map.mp hp with ⟨v, hv, rfl⟩
  by_cases hc : (v.id == pid) = true
  · rw [if_pos hc]
    exact hf v (h v hv)
  · rw [if_neg hc]
    exact h v hv

theorem incFollowers_nonneg (u : UserRec) :
    0 ≤ u.followersCount ∧ 0 ≤ u.followingCount →
      0 ≤ ({ u with followersCount := u.followersCount + 1 } : UserRec).followersCount ∧
        0 ≤ ({ u with followersCount := u.followersCount + 1 } : UserRec).followingCount := by
  intro h
  obtain ⟨h1, h2⟩ := h
  constructor
  · show 0 ≤ u.followersCount + 1
    omega
  · show 0 ≤ u.followingCount
    exact h2

theorem incFollowing_nonneg (u : UserRec) :
    0 ≤ u.followersCount ∧ 0 ≤ u.followingCount →
      0 ≤ ({ u with followingCount := u.followingCount + 1 } : UserRec).followersCount ∧
        0 ≤ ({ u with followingCount := u.followingCount + 1 } : UserRec).followingCount := by
  intro h
  obtain ⟨h1, h2⟩ := h
  constructor
  · show 0 ≤ u.followersCount
    exact h1
  · show 0 ≤ u.followingCount + 1
    omega

theorem decFollowers_nonneg (u : UserRec) :
    0 ≤ u.followersCount ∧ 0 ≤ u.followingCount →
      0 ≤ ((if u.followersCount > 0 then
            { u with followersCount := u.followersCount - 1 } else u) : UserRec).followersCount ∧
        0 ≤ ((if u.followersCount > 0 then
            { u with followersCount := u.followersCount - 1 } else u) : UserRec).followingCount := by
  intro h
  obtain ⟨h1, h2⟩ := h
  by_cases hc : u.followersCount > 0
  · rw [if_pos hc]
    constructor
    · show 0 ≤ u.followersCount - 1
      omega
    · show 0 ≤ u.followingCount
      exact h2
  · rw [if_neg hc]
    exact ⟨h1, h2⟩

theorem decFollowing_nonneg (u : UserRec) :
    0 ≤ u.followersCount ∧ 0 ≤ u.followingCount →
      0 ≤ ((if u.followingCount > 0 then
            { u with followingCount := u.followingCount - 1 } else u) : UserRec).followersCount ∧
        0 ≤ ((if u.followingCount > 0 then
            { u with followingCount := u.followingCount - 1 } else u) : UserRec).followingCount := by
  intro h
  obtain ⟨h1, h2⟩ := h
  by_cases hc : u.followingCount > 0
  · rw [if_pos hc]
    constructor
    · show 0 ≤ u.followersCount
      exact h1
    · show 0 ≤ u.followingCount - 1
      omega
  · rw [if_neg hc]
    exact ⟨h1, h2⟩

theorem follow_user_nonneg {db db' : DB} {a b : Nat} {r : FollowResult}
    (h : follow_user true db a b = Except.ok (db', r))
    (hdb : countersNonneg db) : countersNonneg db' := by
  unfold follow_user at h
  split at h
  · simp at h
  · split at h
    · simp at h
    · split at h
      · simp only [Except.ok.injEq, Prod.mk.injEq] at h
        rw [← h.1]
        exact hdb
      · split at h
        · split at h
          · simp only [Except.ok.injEq, Prod.mk.injEq] at h
            rw [← h.1]
            exact hdb
          · simp only [] at h
            split at h
            · simp at h
            · rename_i db2 hcn
              simp only [Except.ok.injEq, Prod.mk.injEq] at h
              rw [← h.1]
              have hflds := create_notification_ok_fields hcn
              refine ⟨?_, ?_⟩
              · rw [hflds.1]
                exact hdb.1
              · rw [hflds.2.1]
                exact hdb.2
        · simp only [] at h
          split at h
          · simp at h
          · rename_i db4 hcn
            simp only [Except.ok.injEq, Prod.mk.injEq] at h
            rw [← h.1]
            have hflds := create_notification_ok_fields hcn
            refine ⟨?_, ?_⟩
            · rw [hflds.1]
              exact usersNonneg_map_update a _ incFollowing_nonneg
                (usersNonneg_map_update b _ incFollowers_nonneg hdb.1)
            · rw [hflds.2.1]
              exact hdb.2

theorem accept_follow_request_nonneg {db db' : DB} {t r : Nat} {res : Bool}
    (h : accept_follow_request true db t r = Except.ok (db', res))
    (hdb : countersNonneg db) : countersNonneg db' := by
  unfold accept_follow_request at h
  split at h
  · simp at h
  · split at h
    · simp at h
    · split at h
      · simp at h
      · simp only [] at h
        split at h
        · simp at h
        · rename_i db5 hcn
          simp only [Except.ok.injEq, Prod.mk.injEq] at h
          rw [← h.1]
          have hflds := create_notification_ok_fields hcn
          refine ⟨?_, ?_⟩
          · rw [hflds.1]
            exact usersNonneg_map_update r _ incFollowing_nonneg
              (usersNonneg_map_update t _ incFollowers_nonneg hdb.1)
          · rw [hflds.2.1]
            exact hdb.2

theorem like_post_nonneg {db db' : DB} {u p : Nat} {res : Bool}
    (h : like_post true db u p = Except.ok (db', res))
    (hdb : countersNonneg db) : countersNonneg db' := by
  unfold like_post at h
  split at h
  · simp at h
  · split at h
    · simp only [Except.ok.injEq, Prod.mk.injEq] at h
      rw [← h.1]
      exact hdb
    · simp only [] at h
      split at h
      · simp at h
      · rename_i db3 hcn
        simp only [Except.ok.injEq, Prod.mk.injEq] at h
        rw [← h.1]
        have hflds := create_notification_ok_fields hcn
        refine ⟨?_, ?_⟩
        · rw [hflds.1]
          exact hdb.1
        · rw [hflds.2.1]
          refine postsNonneg_map_update p _ ?_ hdb.2
          intro q hq
          show (0 : Int) ≤ q.likesCount + 1
          omega

theorem unlike_post_nonneg {db db' : DB} {u p : Nat} {res : Bool}
    (h : unlike_post db u p = Except.ok (db', res))
    (hdb : countersNonneg db) : countersNonneg db' := by
  unfold unlike_post at h
  split at h
  · simp at h
  · split at h
    · simp only [Except.ok.injEq, Prod.mk.injEq] at h
      rw [← h.1]
      refine ⟨hdb.1, ?_⟩
      refine postsNonneg_map_update p _ ?_ hdb.2
      intro q hq
      exact le_max_left 0 _
    · simp only [Except.ok.injEq, Prod.mk.injEq] at h
      rw [← h.1]
      exact hdb

theorem unfollow_user_nonneg (db : DB) (a b : Nat)
    (hdb : countersNonneg db) : countersNonneg (unfollow_user db a b).1 := by
  unfold unfollow_user
  by_cases hc : ((db.follows.filter (fun e => e.1 == a && e.2 == b)).length > 0)
  · rw [if_pos hc]
    refine ⟨?_, hdb.2⟩
    exact usersNonneg_map_update a _ decFollowing_nonneg
      (usersNonneg_map_update b _ decFollowers_nonneg hdb.1)
  · rw [if_neg hc]
    exact hdb

theorem remove_follower_nonneg (db : DB) (a b : Nat)
    (hdb : countersNonneg db) : countersNonneg (remove_follower db a b) := by
  unfold remove_follower
  by_cases hc : ((db.follows.filter (fun e => e.1 == b && e.2 == a)).length > 0)
  · rw [if_pos hc]
    refine ⟨?_, hdb.2⟩
    exact usersNonneg_map_update a _ decFollowers_nonneg
      (usersNonneg_map_update b _ decFollowing_nonneg hdb.1)
  · rw [if_neg hc]
    exact hdb

theorem applySocialOp_nonneg (db : DB) (op : SocialOp) (hdb : countersNonneg db) :
    countersNonneg (applySocialOp db op) := by
  cases op with
  | follow a b =>
    simp only [applySocialOp]
    cases hres : follow_user true db a b with
    | error e => exact hdb
    | ok pr =>
      rcases pr with ⟨db1, r⟩
      exact follow_user_nonneg hres hdb
  | unfollow a b =>
    exact unfollow_user_nonneg db a b hdb
  | removeFollower a b =>
    exact remove_follower_nonneg db a b hdb
  | accept t r =>
    simp only [applySocialOp]
    cases hres : accept_follow_request true db t r with
    | error e => exact hdb
    | ok pr =>
      rcases pr with ⟨db1, res⟩
      exact accept_follow_request_nonneg hres hdb
  | like u p =>
    simp only [applySocialOp]
    cases hres : like_post true db u p with
    | error e => exact hdb
    | ok pr =>
      rcases pr with ⟨db1, res⟩
      exact like_post_nonneg hres hdb
  | unlike u p =>
    simp only [applySocialOp]
    cases hres : unlike_post db u p with
    | error e => exact hdb
    | ok pr =>
      rcases pr with ⟨db1, res⟩
      exact unlike_post_nonneg hres hdb

theorem runSocialOps_nonneg (db : DB) (hdb : countersNonneg db) (ops : List SocialOp) :
    countersNonneg (runSocialOps db ops) := by
  induction ops generalizing db with
  | nil => exact hdb
  | cons op rest ih => exact ih _ (applySocialOp_nonneg db op hdb)

/-! ## No-self-notification is preserved by every endpoint -/

theorem follow_user_wf {db db' : DB} {a b : Nat} {r : FollowResult}
    (h : follow_user true db a b = Except.ok (db', r))
    (hdb : notifWellFormed db) : notifWellFormed db' := by
  unfold follow_user at h
  split at h
  · simp at h
  · split at h
    · simp at h
    · split at h
      · simp only [Except.ok.injEq, Prod.mk.injEq] at h
        rw [← h.1]
        exact hdb
      · split at h
        · split at h
          · simp only [Except.ok.injEq, Prod.mk.injEq] at h
            rw [← h.1]
            exact hdb
          · simp only [] at h
            split at h
            · simp at h
            · rename_i db2 hcn
              simp only [Except.ok.injEq, Prod.mk.injEq] at h
              rw [← h.1]
              exact create_notification_wf hcn hdb
        · simp only [] at h
          split at h
          · simp at h
          · rename_i db4 hcn
            simp only [Except.ok.injEq, Prod.mk.injEq] at h
            rw [← h.1]
            exact create_notification_wf hcn hdb

theorem accept_follow_request_wf {db db' : DB} {t r : Nat} {res : Bool}
    (h : accept_follow_request true db t r = Except.ok (db', res))
    (hdb : notifWellFormed db) : notifWellFormed db' := by
  unfold accept_follow_request at h
  split at h
  · simp at h
  · split at h
    · simp at h
    · split at h
      · simp at h
      · simp only [] at h
        split at h
        · simp at h
        · rename_i db5 hcn
          simp only [Except.ok.injEq, Prod.mk.injEq] at h
          rw [← h.1]
          exact create_notification_wf hcn hdb

theorem like_post_wf {db db' : DB} {u p : Nat} {res : Bool}
    (h : like_post true db u p = Except.ok (db', res))
    (hdb : notifWellFormed db) : notifWellFormed db' := by
  unfold like_post at h
  split at h
  · simp at h
  · split at h
    · simp only [Except.ok.injEq, Prod.mk.injEq] at h
      rw [← h.1]
      exact hdb
    · simp only [] at h
      split at h
      · simp at h
      · rename_i db3 hcn
        simp only [Except.ok.injEq, Prod.mk.injEq] at h
        rw [← h.1]
        exact create_notification_wf hcn hdb

theorem unlike_post_wf {db db' : DB} {u p : Nat} {res : Bool}
    (h : unlike_post db u p = Except.ok (db', res))
    (hdb : notifWellFormed db) : notifWellFormed db' := by
  unfold unlike_post at h
  split at h
  · simp at h
  · split at h
    · simp only [Except.ok.injEq, Prod.mk.injEq] at h
      rw [← h.1]
      exact hdb
    · simp only [Except.ok.injEq, Prod.mk.injEq] at h
      rw [← h.1]
      exact hdb

theorem unfollow_user_wf (db : DB) (a b : Nat)
    (hdb : notifWellFormed db) : notifWellFormed (unfollow_user db a b).1 := by
  unfold unfollow_user
  by_cases hc : ((db.follows.filter (fun e => e.1 == a && e.2 == b)).length > 0)
  · rw [if_pos hc]
    exact hdb
  · rw [if_neg hc]
    exact hdb

theorem remove_follower_wf (db : DB) (a b : Nat)
    (hdb : notifWellFormed db) : notifWellFormed (remove_follower db a b) := by
  unfold remove_follower
  by_cases hc : ((db.follows.filter (fun e => e.1 == b && e.2 == a)).length > 0)
  · rw [if_pos hc]
    exact hdb
  · rw [if_neg hc]
    exact hdb

theorem applySocialOp_wf (db : DB) (op : SocialOp) (hdb : notifWellFormed db) :
    notifWellFormed (applySocialOp db op) := by
  cases op with
  | follow a b =>
    simp only [applySocialOp]
    cases hres : follow_user true db a b with
    | error e => exact hdb
    | ok pr =>
      rcases pr with ⟨db1, r⟩
      exact follow_user_wf hres hdb
  | unfollow a b =>
    exact unfollow_user_wf db a b hdb
  | removeFollower a b =>
    exact remove_follower_wf db a b hdb
  | accept t r =>
    simp only [applySocialOp]
    cases hres : accept_follow_request true db t r with
    | error e => exact hdb
    | ok pr =>
      rcases pr with ⟨db1, res⟩
      exact accept_follow_request_wf hres hdb
  | like u p =>
    simp only [applySocialOp]
    cases hres : like_post true db u p with
    | error e => exact hdb
    | ok pr =>
      rcases pr with ⟨db1, res⟩
      exact like_post_wf hres hdb
  | unlike u p =>
    simp only [applySocialOp]
    cases hres : unlike_post db u p with
    | error e => exact hdb
    | ok pr =>
      rcases pr with ⟨db1, res⟩
      exact unlike_post_wf hres hdb

theorem runSocialOps_wf (db : DB) (hdb : notifWellFormed db) (ops : List SocialOp) :
    notifWellFormed (runSocialOps db ops) := by
  induction ops generalizing db with
  | nil => exact hdb
  | cons op rest ih => exact ih _ (applySocialOp_wf db op hdb)

/-! ## Characterizations of like/unlike used for the parity argument -/

theorem like_post_already {db : DB} {u p : Nat} {post : PostRec}
    (hfind : findPost db p = some post) (hex : likeExists db u p = true) :
    like_post true db u p = Except.ok (db, true) := by
  unfold like_post
  rw [hfind]
  simp [hex]

theorem unlike_post_noop {db : DB} {u p : Nat} {post : PostRec}
    (hfind : findPost db p = some post) (hex : likeExists db u p = false) :
    unlike_post db u p = Except.ok (db, false) := by
  unfold unlike_post
  rw [hfind]
  simp [hex]

theorem like_post_new_spec {db : DB} {u p : Nat} {post : PostRec}
    (hfind : findPost db p = some post) (hex : likeExists db u p = false) :
    ∃ db', like_post true db u p = Except.ok (db', true) ∧
      db'.likes = db.likes ++ [(u, p)] ∧
      db'.posts = db.posts.map
        (fun q => if q.id == p then { q with likesCount := q.likesCount + 1 } else q) := by
  unfold like_post
  rw [hfind]
  simp only [hex, Bool.false_eq_true, if_false, create_notification_true_eq]
  by_cases hpa : (post.userId == u) = true
  · rw [if_pos hpa]
    exact ⟨_, rfl, rfl, rfl⟩
  · rw [if_neg hpa]
    exact ⟨_, rfl, rfl, rfl⟩

theorem unlike_post_del_spec {db : DB} {u p : Nat} {post : PostRec}
    (hfind : findPost db p = some post) (hex : likeExists db u p = true) :
    ∃ db', unlike_post db u p = Except.ok (db', false) ∧
      db'.likes = db.likes.filter (fun e => !(e.1 == u && e.2 == p)) ∧
      db'.posts = db.posts.map
        (fun q => if q.id == p then { q with likesCount := max 0 (q.likesCount - 1) } else q) := by
  unfold unlike_post
  rw [hfind]
  simp only [hex, if_true]
  exact ⟨_, rfl, rfl, rfl⟩

theorem likeClean_some_post {db : DB} {u p : Nat} {flag : Bool}
    (h : likeCleanState db u p flag) :
    ∃ post, findPost db p = some post ∧
      post.likesCount = (if flag then (1 : Int) else 0) := by
  obtain ⟨-, -, hcount⟩ := h
  cases hf : findPost db p with
  | none =>
    rw [hf] at hcount
    simp at hcount
  | some post =>
    rw [hf] at hcount
    exact ⟨post, rfl, by simpa using hcount⟩

theorem likeClean_applyLike {db : DB} {u p : Nat} {flag : Bool}
    (h : likeCleanState db u p flag) :
    likeCleanState (applyLikeOp db u p LikeOp.like) u p true := by
  obtain ⟨post, hfind, hcount⟩ := likeClean_some_post h
  obtain ⟨hex, hrows, hmap⟩ := h
  cases flag with
  | true =>
    have happ : applyLikeOp db u p LikeOp.like = db := by
      unfold applyLikeOp
      rw [like_post_already hfind hex]
    rw [happ]
    exact ⟨hex, hrows, hmap⟩
  | false =>
    obtain ⟨db', hlp, hlikes, hposts⟩ := like_post_new_spec hfind hex
    have happ : applyLikeOp db u p LikeOp.like = db' := by
      unfold applyLikeOp
      rw [hlp]
    rw [happ]
    have hex' : db.likes.any (fun e => e.1 == u && e.2 == p) = false := hex
    refine ⟨?_, ?_, ?_⟩
    · show db'.likes.any (fun e => e.1 == u && e.2 == p) = true
      rw [hlikes, List.any_append]
      simp
    · show (db'.likes.filter (fun e => e.1 == u && e.2 == p)).length = 1
      rw [hlikes, List.filter_append, filter_of_any_false hex']
      simp
    · show (findPost db' p).map (fun q => q.likesCount) = some (if true then (1 : Int) else 0)
      have hfp : findPost db' p = some { post with likesCount := post.likesCount + 1 } := by
        show findPostIn db'.posts p = _
        rw [hposts, findPostIn_map_update db.posts p p
          (fun q => { q with likesCount := q.likesCount + 1 }) (fun x => rfl)]
        rw [show findPostIn db.posts p = some post from hfind]
        have hidp : post.id = p := findPostIn_some_id hfind
        simp [Option.map, hidp]
      rw [hfp]
      have h0 : post.likesCount = 0 := by simpa using hcount
      simp [h0]

theorem likeClean_applyUnlike {db : DB} {u p : Nat} {flag : Bool}
    (h : likeCleanState db u p flag) :
    likeCleanState (applyLikeOp db u p LikeOp.unlike) u p false := by
  obtain ⟨post, hfind, hcount⟩ := likeClean_some_post h
  obtain ⟨hex, hrows, hmap⟩ := h
  cases flag with
  | false =>
    have happ : applyLikeOp db u p LikeOp.unlike = db := by
      unfold applyLikeOp
      rw [unlike_post_noop hfind hex]
    rw [happ]
    exact ⟨hex, hrows, hmap⟩
  | true =>
    obtain ⟨db', hlp, hlikes, hposts⟩ := unlike_post_del_spec hfind hex
    have happ : applyLikeOp db u p LikeOp.unlike = db' := by
      unfold applyLikeOp
      rw [hlp]
    rw [happ]
    refine ⟨?_, ?_, ?_⟩
    · show db'.likes.any (fun e => e.1 == u && e.2 == p) = false
      rw [hlikes]
      exact any_filter_neg _ _
    · show (db'.likes.filter (fun e => e.1 == u && e.2 == p)).length = 0
      rw [hlikes, filter_of_any_false (any_filter_neg _ _)]
      rfl
    · show (findPost db' p).map (fun q => q.likesCount) = some (if false then (1 : Int) else 0)
      have hfp : findPost db' p =
          some { post with likesCount := max 0 (post.likesCount - 1) } := by
        show findPostIn db'.posts p = _
        rw [hposts, findPostIn_map_update db.posts p p
          (fun q => { q with likesCount := max 0 (q.likesCount - 1) }) (fun x => rfl)]
        rw [show findPostIn db.posts p = some post from hfind]
        have hidp : post.id = p := findPostIn_some_id hfind
        simp [Option.map, hidp]
      rw [hfp]
      have h1 : post.likesCount = 1 := by simpa using hcount
      simp [h1]

theorem likeClean_run {db : DB} {u p : Nat} {flag : Bool}
    (h : likeCleanState db u p flag) (ops : List LikeOp) :
    likeCleanState (runLikeOps db u p ops) u p (netLiked flag ops) := by
  induction ops generalizing db flag with
  | nil => exact h
  | cons op rest ih =>
    cases op with
    | like => exact ih (likeClean_applyLike h)
    | unlike => exact ih (likeClean_applyUnlike h)

theorem runLikeOps_append (db : DB) (u p : Nat) (l1 l2 : List LikeOp) :
    runLikeOps db u p (l1 ++ l2) = runLikeOps (runLikeOps db u p l1) u p l2 := by
  induction l1 generalizing db with
  | nil => rfl
  | cons op rest ih =>
    show runLikeOps (applyLikeOp db u p op) u p (rest ++ l2) = _
    rw [ih]
    rfl

theorem unfollow_user_noop {db : DB} {a b : Nat} (h : isFollowing db a b = false) :
    unfollow_user db a b = (db, { follows := false, requested := false }) := by
  unfold unfollow_user
  have h' : db.follows.any (fun e => e.1 == a && e.2 == b) = false := h
  rw [filter_of_any_false h']
  simp

theorem netLiked_append (b : Bool) (l1 l2 : List LikeOp) :
    netLiked b (l1 ++ l2) = netLiked (netLiked b l1) l2 := by
  induction l1 generalizing b with
  | nil => rfl
  | cons op rest ih =>
    cases op with
    | like => exact ih true
    | unlike => exact ih false

/-! ## Characterizations of the follow flows -/

theorem follow_user_public_spec {db : DB} {a b : Nat} {tb : UserRec}
    (hba : (b == a) = false) (hb : findUser db b = some tb)
    (hpub : tb.isPrivate = false) (hnot : isFollowing db a b = false) :
    ∃ db1, follow_user true db a b = Except.ok (db1, { follows := true, requested := false }) ∧
      db1.follows = db.follows ++ [(a, b)] ∧
      db1.users = (db.users.map
          (fun u => if u.id == b then { u with followersCount := u.followersCount + 1 } else u)).map
        (fun u => if u.id == a then { u with followingCount := u.followingCount + 1 } else u) := by
  unfold follow_user
  have hba' : ¬((b == a) = true) := by simp [hba]
  rw [if_neg hba', hb]
  simp only [hnot, Bool.false_eq_true, if_false, hpub, create_notification_true_eq, hba]
  exact ⟨_, rfl, rfl, rfl⟩

theorem follow_user_private_spec {db : DB} {a b : Nat} {tb : UserRec}
    (hba : (b == a) = false) (hb : findUser db b = some tb)
    (hpriv : tb.isPrivate = true) (hnot : isFollowing db a b = false)
    (hnoreq : hasPendingRequest db a b = false) :
    ∃ db1, follow_user true db a b = Except.ok (db1, { follows := false, requested := true }) ∧
      db1.follows = db.follows ∧
      db1.followRequests = db.followRequests ++ [(a, b)] ∧
      db1.users = db.users ∧ db1.posts = db.posts := by
  unfold follow_user
  have hba' : ¬((b == a) = true) := by simp [hba]
  rw [if_neg hba', hb]
  simp only [hnot, Bool.false_eq_true, if_false, hpriv, if_true, hnoreq,
    create_notification_true_eq, hba]
  exact ⟨_, rfl, rfl, rfl, rfl, rfl⟩

theorem accept_request_notFound {db : DB} {a b : Nat}
    (hab : (a == b) = false) (hnoreq : hasPendingRequest db a b = false) :
    accept_follow_request true db b a = Except.error ApiErr.notFound := by
  unfold accept_follow_request
  rw [if_neg (by simp [hab] : ¬((a == b) = true))]
  rw [if_pos (by simp [hnoreq] : (!(hasPendingRequest db a b)) = true)]

theorem accept_request_spec {db : DB} {a b : Nat} {ua : UserRec}
    (hab : (a == b) = false) (hreq : hasPendingRequest db a b = true)
    (hfinda : findUser db a = some ua) :
    ∃ db2, accept_follow_request true db b a = Except.ok (db2, true) ∧
      db2.follows = db.follows ++ [(a, b)] ∧
      db2.followRequests = db.followRequests.filter (fun e => !(e.1 == a && e.2 == b)) ∧
      db2.users = (db.users.map
          (fun u => if u.id == b then { u with followersCount := u.followersCount + 1 } else u)).map
        (fun u => if u.id == a then { u with followingCount := u.followingCount + 1 } else u) := by
  unfold accept_follow_request
  rw [if_neg (by simp [hab] : ¬((a == b) = true))]
  rw [if_neg (by simp [hreq] : ¬((!(hasPendingRequest db a b)) = true))]
  rw [hfinda]
  simp only [create_notification_true_eq, hab]
  exact ⟨_, rfl, rfl, rfl, rfl⟩

theorem findUserIn_inc_counters {l : List UserRec} {a b : Nat} {tb : UserRec}
    (hba : (b == a) = false) (hb : findUserIn l b = some tb) :
    findUserIn ((l.map
        (fun u => if u.id == b then { u with followersCount := u.followersCount + 1 } else u)).map
      (fun u => if u.id == a then { u with followingCount := u.followingCount + 1 } else u)) b =
      some { tb with followersCount := tb.followersCount + 1 } := by
  rw [findUserIn_map_update
      (l.map (fun u => if u.id == b then { u with followersCount := u.followersCount + 1 } else u))
      a b (fun u => { u with followingCount := u.followingCount + 1 }) (fun x => rfl)]
  rw [findUserIn_map_update l b b
      (fun u => { u with followersCount := u.followersCount + 1 }) (fun x => rfl)]
  rw [hb]
  have hid : tb.id = b := findUserIn_some_id hb
  simp [Option.map, hid, hba]

theorem findUserIn_inc_counters_a {l : List UserRec} {a b : Nat} {ua : UserRec}
    (hnab : (a == b) = false) (ha : findUserIn l a = some ua) :
    findUserIn ((l.map
        (fun u => if u.id == b then { u with followersCount := u.followersCount + 1 } else u)).map
      (fun u => if u.id == a then { u with followingCount := u.followingCount + 1 } else u)) a =
      some { ua with followingCount := ua.followingCount + 1 } := by
  rw [findUserIn_map_update
      (l.map (fun u => if u.id == b then { u with followersCount := u.followersCount + 1 } else u))
      a a (fun u => { u with followingCount := u.followingCount + 1 }) (fun x => rfl)]
  rw [findUserIn_map_update l b a
      (fun u => { u with followersCount := u.followersCount + 1 }) (fun x => rfl)]
  rw [ha]
  have hid : ua.id = a := findUserIn_some_id ha
  simp [Option.map, hid, hnab]

/-! ## Claim theorems -/

/-- C1: a post is included by the feed query's WHERE clause exactly according
to its visibility tier: a public post for every viewer including anonymous, a
private post only for its author, a followers_only post for its author and
for viewers who follow the author.  Stated over the full query window
(skip 0, limit = number of posts), so inclusion is membership in the query
result. -/
theorem feed_visibility_tier_rule (db : DB) (viewer : Option Nat) (p : PostRec) :
    p ∈ get_feed_posts db viewer 0 db.posts.length ↔
      p ∈ db.posts ∧
        (p.visibility = "public" ∨
         (p.visibility = "private" ∧ viewer = some p.userId) ∨
         (p.visibility = "followers_only" ∧
           (viewer = some p.userId ∨
            ∃ v, viewer = some v ∧ isFollowing db v p.userId = true))) := by
  unfold get_feed_posts
  rw [List.drop_zero, List.take_of_length_le]
  · rw [(List.perm_insertionSort postDesc _).mem_iff, List.mem_filter]
    apply and_congr_right
    intro _
    unfold feedVisible
    cases viewer with
    | none =>
      simp
    | some v =>
      simp only [Bool.or_eq_true, Bool.and_eq_true, beq_iff_eq, Option.some.injEq]
      rw [or_assoc]
      constructor
      · rintro (h1 | ⟨h1, h2⟩ | ⟨h1, h2 | h2⟩)
        · exact Or.inl h1
        · exact Or.inr (Or.inl ⟨h1, h2.symm⟩)
        · exact Or.inr (Or.inr ⟨h1, Or.inl h2.symm⟩)
        · exact Or.inr (Or.inr ⟨h1, Or.inr ⟨v, rfl, h2⟩⟩)
      · rintro (h1 | ⟨h1, h2⟩ | ⟨h1, h2 | ⟨w, hw, h2⟩⟩)
        · exact Or.inl h1
        · exact Or.inr (Or.inl ⟨h1, h2.symm⟩)
        · exact Or.inr (Or.inr ⟨h1, Or.inl h2.symm⟩)
        · cases hw
          exact Or.inr (Or.inr ⟨h1, Or.inr h2⟩)
  · calc ((db.posts.filter (feedVisible db viewer)).insertionSort postDesc).length
        = (db.posts.filter (feedVisible db viewer)).length :=
          (List.perm_insertionSort postDesc _).length_eq
      _ ≤ db.posts.length := List.length_filter_le _ _

/-- C2: the unified feed merge sorts all candidate items (posts keyed by
their own creation time, reposts keyed by the repost's creation time)
descending by that key and then applies (skip, limit) to the merged
sequence; in particular posts with timestamps [10, 8, 5] merged with a
repost of ordering timestamp 9 give [10, 9, 8, 5], and the same holds with
the streams swapped. -/
theorem unified_feed_merge (posts : List PostRec) (reposts : List RepostRec)
    (skip limit : Nat) :
    (∃ sortedAll : List FeedItem,
        sortedAll.Perm (posts.map FeedItem.post ++ reposts.map FeedItem.repost) ∧
        List.Sorted (fun a b => feedItemTs b ≤ feedItemTs a) sortedAll ∧
        build_unified_feed posts reposts skip limit = (sortedAll.drop skip).take limit) ∧
    (build_unified_feed
        [⟨1, 1, "p1", "public", 0, 10⟩, ⟨2, 1, "p2", "public", 0, 8⟩,
         ⟨3, 1, "p3", "public", 0, 5⟩]
        [⟨7, 2, 1, 9⟩] 0 4).map feedItemTs = [10, 9, 8, 5] ∧
    (build_unified_feed [⟨4, 1, "p4", "public", 0, 9⟩]
        [⟨8, 2, 1, 10⟩, ⟨9, 2, 2, 8⟩, ⟨11, 2, 3, 5⟩] 0 4).map feedItemTs =
      [10, 9, 8, 5] := by
  refine ⟨⟨(posts.map FeedItem.post ++ reposts.map FeedItem.repost).insertionSort itemDesc,
    List.perm_insertionSort _ _, ?_, rfl⟩, by decide, by decide⟩
  exact List.sorted_insertionSort itemDesc _

/-- C3: starting from a fresh (user, post) pair (no Like row, likes_count 0),
any sequence of like/unlike calls leaves likes_count equal to 1 when the net
parity of the calls is liked and 0 when unliked (hence never negative), with
exactly that many Like rows; a second like in a row is a no-op (one row, one
increment) and a second unlike in a row is a no-op. -/
theorem like_unlike_parity (db : DB) (u p : Nat)
    (h : likeCleanState db u p false) (ops : List LikeOp) :
    ((findPost (runLikeOps db u p ops) p).map (fun q => q.likesCount) =
      some (if netLiked false ops then (1 : Int) else 0)) ∧
    likeRowCount (runLikeOps db u p ops) u p =
      (if netLiked false ops then 1 else 0) ∧
    runLikeOps db u p (ops ++ [LikeOp.like, LikeOp.like]) =
      runLikeOps db u p (ops ++ [LikeOp.like]) ∧
    runLikeOps db u p (ops ++ [LikeOp.unlike, LikeOp.unlike]) =
      runLikeOps db u p (ops ++ [LikeOp.unlike]) := by
  obtain ⟨hex, hrows, hmap⟩ := likeClean_run h ops
  refine ⟨hmap, hrows, ?_, ?_⟩
  · have h1 := likeClean_run h (ops ++ [LikeOp.like])
    rw [runLikeOps_append] at h1
    rw [netLiked_append] at h1
    obtain ⟨post1, hfind1, -⟩ := likeClean_some_post h1
    rw [runLikeOps_append, runLikeOps_append]
    show applyLikeOp (runLikeOps (runLikeOps db u p ops) u p [LikeOp.like]) u p LikeOp.like =
      runLikeOps (runLikeOps db u p ops) u p [LikeOp.like]
    unfold applyLikeOp
    rw [like_post_already hfind1 h1.1]
  · have h1 := likeClean_run h (ops ++ [LikeOp.unlike])
    rw [runLikeOps_append] at h1
    rw [netLiked_append] at h1
    obtain ⟨post1, hfind1, -⟩ := likeClean_some_post h1
    rw [runLikeOps_append, runLikeOps_append]
    show applyLikeOp (runLikeOps (runLikeOps db u p ops) u p [LikeOp.unlike]) u p LikeOp.unlike =
      runLikeOps (runLikeOps db u p ops) u p [LikeOp.unlike]
    unfold applyLikeOp
    rw [unlike_post_noop hfind1 h1.1]

/-- C3 witness: on the concrete store, after [like, like] the post's
likes_count is exactly 1. -/
theorem like_unlike_parity_witness :
    likeCleanState dbMain 1 10 false ∧
    (findPost (runLikeOps dbMain 1 10 [LikeOp.like, LikeOp.like]) 10).map
      (fun q => q.likesCount) = some 1 :=
  ⟨by decide, (like_unlike_parity dbMain 1 10 (by decide) [LikeOp.like, LikeOp.like]).1⟩

/-- C4: starting from a store whose denormalized counters are non-negative,
any sequence of follow / unfollow / remove-follower / accept / like / unlike
endpoint calls keeps every followers_count, following_count and likes_count
non-negative (every decrement is clamped at zero), and unfollow with no
Follow edge leaves the store unchanged and returns the no-op result. -/
theorem counters_never_negative (db : DB) (h : countersNonneg db) :
    (∀ ops : List SocialOp, countersNonneg (runSocialOps db ops)) ∧
    (∀ a b : Nat, isFollowing db a b = false →
      unfollow_user db a b = (db, { follows := false, requested := false })) :=
  ⟨fun ops => runSocialOps_nonneg db h ops, fun _ _ hf => unfollow_user_noop hf⟩

/-- C4 witness: on the concrete store, counters stay non-negative after a
run that includes redundant unfollows and unlikes. -/
theorem counters_never_negative_witness :
    countersNonneg dbMain ∧
    countersNonneg (runSocialOps dbMain
      [SocialOp.follow 1 2, SocialOp.unfollow 1 2, SocialOp.unfollow 1 2,
       SocialOp.like 1 10, SocialOp.unlike 1 10, SocialOp.unlike 1 10]) :=
  ⟨by decide, (counters_never_negative dbMain (by decide)).1
    [SocialOp.follow 1 2, SocialOp.unfollow 1 2, SocialOp.unfollow 1 2,
     SocialOp.like 1 10, SocialOp.unlike 1 10, SocialOp.unlike 1 10]⟩

/-- C5: following a public target from a not-yet-following state succeeds,
makes follows(A,B) true, increments B's followers_count and A's
following_count by exactly one, and a second identical call returns the very
same store (idempotent: counters +1, not +2). -/
theorem follow_public_increments (db : DB) (a b : Nat) (ua tb : UserRec)
    (hab : a ≠ b) (ha : findUser db a = some ua) (hb : findUser db b = some tb)
    (hpub : tb.isPrivate = false) (hnot : isFollowing db a b = false) :
    ∃ db1, follow_user true db a b = Except.ok (db1, { follows := true, requested := false }) ∧
      isFollowing db1 a b = true ∧
      (findUser db1 b).map (fun u => u.followersCount) = some (tb.followersCount + 1) ∧
      (findUser db1 a).map (fun u => u.followingCount) = some (ua.followingCount + 1) ∧
      follow_user true db1 a b = Except.ok (db1, { follows := true, requested := false }) := by
  have hba : (b == a) = false := by
    rw [beq_eq_false_iff_ne]
    exact fun h => hab h.symm
  have hnab : (a == b) = false := by
    rw [beq_eq_false_iff_ne]
    exact hab
  obtain ⟨db1, hcall, hfollows, husers⟩ := follow_user_public_spec hba hb hpub hnot
  have hfol1 : isFollowing db1 a b = true := by
    show db1.follows.any (fun e => e.1 == a && e.2 == b) = true
    rw [hfollows, List.any_append]
    simp
  have hfind1b : findUser db1 b = some { tb with followersCount := tb.followersCount + 1 } := by
    show findUserIn db1.users b = _
    rw [husers]
    exact findUserIn_inc_counters hba hb
  have hfind1a : findUser db1 a = some { ua with followingCount := ua.followingCount + 1 } := by
    show findUserIn db1.users a = _
    rw [husers]
    exact findUserIn_inc_counters_a hnab ha
  refine ⟨db1, hcall, hfol1, ?_, ?_, ?_⟩
  · rw [hfind1b]
    rfl
  · rw [hfind1a]
    rfl
  · unfold follow_user
    rw [if_neg (by simp [hba] : ¬((b == a) = true)), hfind1b]
    simp [hfol1]

/-- C5 witness: concrete run on the two public users of dbMain. -/
theorem follow_public_increments_witness :
    ∃ db1, follow_user true dbMain 1 2 = Except.ok (db1, { follows := true, requested := false }) ∧
      isFollowing db1 1 2 = true ∧
      (findUser db1 2).map (fun u => u.followersCount) = some 1 ∧
      (findUser db1 1).map (fun u => u.followingCount) = some 1 ∧
      follow_user true db1 1 2 = Except.ok (db1, { follows := true, requested := false }) :=
  follow_public_increments dbMain 1 2 ⟨1, false, 0, 0⟩ ⟨2, false, 0, 0⟩
    (by decide) (by decide) (by decide) rfl (by decide)

/-- C6: following a private target creates a FollowRequest (not a Follow)
and returns a requested result; follows(A,B) stays false; accepting when no
matching request exists fails with NotFound; accepting the pending request
deletes it, inserts the Follow edge and increments both counters. -/
theorem follow_private_request_flow (db : DB) (a b : Nat) (ua tb : UserRec)
    (hab : a ≠ b) (ha : findUser db a = some ua) (hb : findUser db b = some tb)
    (hpriv : tb.isPrivate = true) (hnot : isFollowing db a b = false)
    (hnoreq : hasPendingRequest db a b = false) :
    accept_follow_request true db b a = Except.error ApiErr.notFound ∧
    ∃ db1, follow_user true db a b = Except.ok (db1, { follows := false, requested := true }) ∧
      db1.follows = db.follows ∧
      isFollowing db1 a b = false ∧
      hasPendingRequest db1 a b = true ∧
      ∃ db2, accept_follow_request true db1 b a = Except.ok (db2, true) ∧
        isFollowing db2 a b = true ∧
        hasPendingRequest db2 a b = false ∧
        (findUser db2 b).map (fun u => u.followersCount) = some (tb.followersCount + 1) ∧
        (findUser db2 a).map (fun u => u.followingCount) = some (ua.followingCount + 1) := by
  have hnab : (a == b) = false := by
    rw [beq_eq_false_iff_ne]
    exact hab
  have hba : (b == a) = false := by
    rw [beq_eq_false_iff_ne]
    exact fun h => hab h.symm
  refine ⟨accept_request_notFound hnab hnoreq, ?_⟩
  obtain ⟨db1, hcall, hf, hfr, hu, hp⟩ := follow_user_private_spec hba hb hpriv hnot hnoreq
  have hfol1 : isFollowing db1 a b = false := by
    show db1.follows.any (fun e => e.1 == a && e.2 == b) = false
    rw [hf]
    exact hnot
  have hreq1 : hasPendingRequest db1 a b = true := by
    show db1.followRequests.any (fun e => e.1 == a && e.2 == b) = true
    rw [hfr, List.any_append]
    simp
  have hfinda1 : findUser db1 a = some ua := by
    show findUserIn db1.users a = some ua
    rw [hu]
    exact ha
  obtain ⟨db2, hacc, hf2, hfr2, hu2⟩ := accept_request_spec hnab hreq1 hfinda1
  refine ⟨db1, hcall, hf, hfol1, hreq1, db2, hacc, ?_, ?_, ?_, ?_⟩
  · show db2.follows.any (fun e => e.1 == a && e.2 == b) = true
    rw [hf2, List.any_append]
    simp
  · show db2.followRequests.any (fun e => e.1 == a && e.2 == b) = false
    rw [hfr2]
    exact any_filter_neg _ _
  · show (findUserIn db2.users b).map (fun u => u.followersCount) =
      some (tb.followersCount + 1)
    rw [hu2, hu, findUserIn_inc_counters hba hb]
    rfl
  · show (findUserIn db2.users a).map (fun u => u.followingCount) =
      some (ua.followingCount + 1)
    rw [hu2, hu, findUserIn_inc_counters_a hnab ha]
    rfl

/-- C6 witness: concrete run against the private user 3 of dbMain. -/
theorem follow_private_request_flow_witness :
    accept_follow_request true dbMain 3 1 = Except.error ApiErr.notFound ∧
    ∃ db1, follow_user true dbMain 1 3 = Except.ok (db1, { follows := false, requested := true }) ∧
      db1.follows = dbMain.follows ∧
      isFollowing db1 1 3 = false ∧
      hasPendingRequest db1 1 3 = true ∧
      ∃ db2, accept_follow_request true db1 3 1 = Except.ok (db2, true) ∧
        isFollowing db2 1 3 = true ∧
        hasPendingRequest db2 1 3 = false ∧
        (findUser db2 3).map (fun u => u.followersCount) = some 1 ∧
        (findUser db2 1).map (fun u => u.followingCount) = some 1 :=
  follow_private_request_flow dbMain 1 3 ⟨1, false, 0, 0⟩ ⟨3, true, 0, 0⟩
    (by decide) (by decide) (by decide) rfl (by decide) (by decide)

/-- C7: create_notification suppresses self-notification entirely (no
Notification row, no push dispatch, the store is returned unchanged), and
consequently a store in which no notification has recipient equal to actor
keeps that invariant across any sequence of social actions. -/
theorem no_self_notification (db : DB) :
    (∀ (okFlag : Bool) (uid aid : Nat) (ty tx : String), uid = aid →
      create_notification okFlag db uid aid ty tx = Except.ok db) ∧
    (notifWellFormed db → ∀ ops : List SocialOp, notifWellFormed (runSocialOps db ops)) := by
  constructor
  · intro okFlag uid aid ty tx hEq
    unfold create_notification
    simp [hEq]
  · intro hdb ops
    exact runSocialOps_wf db hdb ops

/-- C7 witness: liking your own post on the concrete store produces zero
notifications, and create_notification is the identity on a self pair. -/
theorem no_self_notification_witness :
    create_notification true dbMain 1 1 "like" "x" = Except.ok dbMain ∧
    notifWellFormed (runSocialOps dbMain [SocialOp.like 2 10]) :=
  ⟨(no_self_notification dbMain).1 true 1 1 "like" "x" rfl,
   (no_self_notification dbMain).2 (by decide) [SocialOp.like 2 10]⟩

/-- C8 counterexample: on the concrete store the self-referential calls do
not return the current state: follow(1,1) and acceptRequest(1,1) both raise
BadRequest (HTTP 400 in the source), refuting the claim that self-follow and
self-accept are handled by returning the current state rather than raising. -/
theorem self_actions_raise_counterexample :
    follow_user true dbMain 1 1 = Except.error ApiErr.badRequest ∧
    accept_follow_request true dbMain 1 1 = Except.error ApiErr.badRequest := by
  exact ⟨rfl, rfl⟩

/-- C8 amended: duplicate follow and duplicate like are handled by returning
the current state rather than raising, and are safe to repeat; self-follow
and self-accept instead raise BadRequest rather than returning the current
state. -/
theorem duplicate_safe_self_raises (db : DB) (a b p : Nat) (target : UserRec) (post : PostRec)
    (hab : a ≠ b)
    (hb : findUser db b = some target)
    (hfol : isFollowing db a b = true)
    (hpost : findPost db p = some post)
    (hlike : likeExists db a p = true) :
    follow_user true db a b = Except.ok (db, { follows := true, requested := false }) ∧
    like_post true db a p = Except.ok (db, true) ∧
    (∀ x : Nat, follow_user true db x x = Except.error ApiErr.badRequest) ∧
    (∀ x : Nat, accept_follow_request true db x x = Except.error ApiErr.badRequest) := by
  have hba : (b == a) = false := by
    rw [beq_eq_false_iff_ne]
    exact fun h => hab h.symm
  refine ⟨?_, ?_, ?_, ?_⟩
  · unfold follow_user
    rw [if_neg (by simp [hba] : ¬((b == a) = true)), hb]
    simp [hfol]
  · exact like_post_already hpost hlike
  · intro x
    unfold follow_user
    simp
  · intro x
    unfold accept_follow_request
    simp

/-- C8 witness: concrete instances of the amended behaviours on dbDup. -/
theorem duplicate_safe_self_raises_witness :
    follow_user true dbDup 1 2 = Except.ok (dbDup, { follows := true, requested := false }) ∧
    like_post true dbDup 1 10 = Except.ok (dbDup, true) ∧
    follow_user true dbDup 1 1 = Except.error ApiErr.badRequest ∧
    accept_follow_request true dbDup 1 1 = Except.error ApiErr.badRequest := by
  have h := duplicate_safe_self_raises dbDup 1 2 10 ⟨2, false, 1, 0⟩
    ⟨10, 2, "hi", "public", 1, 100⟩
    (by decide) (by decide) (by decide) (by decide) (by decide)
  exact ⟨h.1, h.2.1, h.2.2.1 1, h.2.2.2 1⟩

/-- C9: the push-enqueue call in create_notification is not wrapped in
try/except, so when the enqueue raises (enqueueOk = false) and the recipient
differs from the actor, like_post propagates the exception as an internal
error: the request fails and the transaction (like row, counter,
notification row) is rolled back, while the identical like with a working
broker succeeds.  This is the failing behaviour behind the claim; the clips
endpoint shows the intended guarded pattern. -/
theorem enqueue_failure_aborts_like (db : DB) (u p : Nat) (post : PostRec)
    (hpost : findPost db p = some post) (howner : post.userId ≠ u)
    (hnolike : likeExists db u p = false) :
    like_post false db u p = Except.error ApiErr.internalError ∧
    ∃ db1, like_post true db u p = Except.ok (db1, true) := by
  have hpu : (post.userId == u) = false := by
    rw [beq_eq_false_iff_ne]
    exact howner
  constructor
  · unfold like_post
    rw [hpost]
    have hcn : create_notification false
        (updatePost { db with likes := db.likes ++ [(u, p)] } p
          (fun q => { q with likesCount := q.likesCount + 1 })) post.userId u
        "like" "liked your post" = Except.error ApiErr.internalError := by
      unfold create_notification
      rw [if_neg (by simp [hpu] : ¬((post.userId == u) = true))]
      rfl
    simp only [hnolike, Bool.false_eq_true, if_false, hcn]
  · obtain ⟨db1, hlp, -, -⟩ := like_post_new_spec hpost hnolike
    exact ⟨db1, hlp⟩

/-- C9 witness: on the concrete store a broken broker turns a like of
another user's post into an internal error, while a working broker lets the
same like succeed. -/
theorem enqueue_failure_aborts_like_witness :
    like_post false dbMain 1 10 = Except.error ApiErr.internalError ∧
    ∃ db1, like_post true dbMain 1 10 = Except.ok (db1, true) :=
  enqueue_failure_aborts_like dbMain 1 10 ⟨10, 2, "hello", "private", 0, 100⟩
    (by decide) (by decide) (by decide)

/-- C10: get_post performs no visibility check: every existing post is
returned with its full content to every viewer including anonymous, while
the feed query's visibility clause excludes the same post for viewers the
tier rule rejects (anonymous viewers for any non-public post, non-author
viewers for a private post). -/
theorem get_post_no_visibility_check (db : DB) (pid : Nat) (post : PostRec)
    (hpost : findPost db pid = some post) :
    (∀ viewer : Option Nat, ∃ liked : Bool,
        get_post db viewer pid = Except.ok (post_to_response post liked)) ∧
    get_post db none pid = Except.ok (post_to_response post false) ∧
    (post.visibility ≠ "public" → feedVisible db none post = false) ∧
    (∀ v : Nat, post.visibility = "private" → v ≠ post.userId →
      feedVisible db (some v) post = false) := by
  refine ⟨?_, ?_, ?_, ?_⟩
  · intro viewer
    cases viewer with
    | none =>
      refine ⟨false, ?_⟩
      unfold get_post
      rw [hpost]
    | some v =>
      refine ⟨likeExists db v pid, ?_⟩
      unfold get_post
      rw [hpost]
  · unfold get_post
    rw [hpost]
  · intro hnp
    show (post.visibility == "public") = false
    rw [beq_eq_false_iff_ne]
    exact hnp
  · intro v hpriv hvne
    unfold feedVisible
    simp only [hpriv]
    simp [beq_eq_false_iff_ne]
    exact fun h => hvne h.symm

/-- C10 witness: the private post 10 of dbMain is readable anonymously by id
while the anonymous feed clause excludes it. -/
theorem get_post_no_visibility_check_witness :
    get_post dbMain none 10 =
      Except.ok (post_to_response ⟨10, 2, "hello", "private", 0, 100⟩ false) ∧
    feedVisible dbMain none ⟨10, 2, "hello", "private", 0, 100⟩ = false := by
  have h := get_post_no_visibility_check dbMain 10 ⟨10, 2, "hello", "private", 0, 100⟩ (by decide)
  exact ⟨h.2.1, h.2.2.1 (by decide)⟩

end Feedr
